import Mathlib

/-!
Shallow embedding of the unitify dimensioned-value library (src/unitd.js).

The library has three components:
* a Unit registry (`Unit.register`) keyed by a unit type (dimension) and a
  unit name, with identifier validation and duplicate rejection;
* an Operation registry (`Operations.register` / `Operations.onRegister`)
  mapping operation names to binary numeric functions, notifying listeners
  on each successful registration;
* `Measure`, an immutable value pairing a numeric magnitude with a unit and
  a significant-digit precision, offering unit conversion (`Measure.as`) and
  dynamically mounted arithmetic methods (`opMethod`).

JavaScript numbers are modelled as exact rationals; the JS value universe
that the constructor coerces from is modelled by `JSVal` (a finite number,
the NaN number, a string, or undefined), and `JSVal.toNumber` models the
`Number(v).valueOf()` coercion (returning `none` for NaN).  Exceptions are
modelled with `Except Err`.  The two registries are modelled as explicit
state values threaded through the registration functions; the listener
callbacks of the Operation registry are modelled by subscription tokens,
and a registration returns the list of notification events it fires.

The registries are JS objects, so the reads `Unit[type]`, `Unit[type][name]`
and `ops.hasOwnProperty(name)` are prototype-chain property lookups, not
clean map lookups: `builtinProp`/`readTypeProp` model the own and inherited
properties a created type namespace exposes besides its registered units
(the function `name` string, the falsy `length`, `prototype`, `property`,
the `Function.prototype`/`Object.prototype` members, and the restricted
`caller`/`arguments` accessors whose very read throws), and the operation
registry models the `__proto__` setter swallowing a stored operation and
the shadowing of `hasOwnProperty`.  Paths where the program goes on to
operate on a pre-existing host object are reported as an explicit
`hostBoundary` outcome rather than asserted to succeed or fail.
-/

namespace Unitd

/-- A registered unit: its type (dimension), name, abbreviation and scale
relative to the implicit base unit of its type.  In the source a unit is an
object carrying exactly these four data (src/unitd.js lines 120-127). -/
structure Unit where
  type : String
  name : String
  abbr : String
  scale : ℚ
deriving DecidableEq, Repr

/-- Two units are comparable iff they belong to the same type.  The source
implements this as `other instanceof Unit[type]` on the per-type prototype
(src/unitd.js line 107), which for registered units is exactly equality of
the type tags. -/
def Unit.isComparable (u v : Unit) : Bool :=
  u.type == v.type

/-- The failure outcomes of the library.  The first seven constructors are
the `throw new Error` sites of the source, `incompatibleValue` being the
same throw site as `incompatible` (src/unitd.js line 85) reached when the
name resolution produced a truthy non-unit property value.  `typeError`
marks a TypeError raised by the JS runtime itself (reading the restricted
`caller`/`arguments` accessors of a strict function, or reading a property
of `undefined`), and `reservedWord` the SyntaxError the `eval` at
src/unitd.js line 104 raises when the type tag is an ECMAScript reserved
word and hence invalid as a function-expression name.  `hostBoundary`
marks the paths where the program goes on to read or mutate a
pre-existing host object (the `register` function, the locked `prototype`
object, the `"Unit"` name string, an inherited built-in method, or an
`ops` object whose duplicate check was shadowed by a stored operation
named `hasOwnProperty`): what happens there is decided by that host
object, outside the registry model, so the model reports the boundary
rather than asserting a particular outcome. -/
inductive Err where
  | badTypeName (s : String)
  | badUnitName (s : String)
  | duplicateUnit (type name : String)
  | duplicateOp (name : String)
  | invalidValue (msg : String)
  | unresolvable (name : String)
  | incompatible (u v : Unit)
  | incompatibleValue (u : Unit) (prop : String)
  | typeError (desc : String)
  | reservedWord (s : String)
  | hostBoundary (desc : String)
deriving DecidableEq, Repr

/-- The JS values the Measure constructor can receive for its `value` and
`precision` arguments: a finite number, the number NaN, a string, or
undefined (a missing argument). -/
inductive JSVal where
  | num (q : ℚ)
  | nan
  | str (s : String)
  | undefined
deriving DecidableEq, Repr

/-- Numeric value of a list of decimal digit characters. -/
def digitsToNat (cs : List Char) : ℕ :=
  cs.foldl (fun a c => 10 * a + (c.toNat - 48)) 0

/-- Parse an unsigned decimal numeral, optionally with a fractional part,
as the JS `Number` conversion does for such strings.  Returns `none` when
the characters do not form a numeral (the NaN outcome). -/
def parseUnsigned (cs : List Char) : Option ℚ :=
  let ip := cs.takeWhile Char.isDigit
  let rest := cs.drop ip.length
  match rest with
  | [] => if ip.isEmpty then none else some (digitsToNat ip : ℚ)
  | '.' :: fp =>
    if fp.all Char.isDigit && !(ip.isEmpty && fp.isEmpty) then
      some ((digitsToNat ip : ℚ) + (digitsToNat fp : ℚ) / (10 : ℚ) ^ fp.length)
    else none
  | _ => none

/-- The JS `Number(string)` coercion, restricted to plain decimal numerals:
surrounding whitespace is ignored, the empty string is 0, an optional sign
precedes the numeral, and anything else yields NaN (`none`). -/
def strToNumber (s : String) : Option ℚ :=
  let cs := s.data.dropWhile Char.isWhitespace
  let cs := (cs.reverse.dropWhile Char.isWhitespace).reverse
  match cs with
  | [] => some 0
  | '-' :: rest => (parseUnsigned rest).map Neg.neg
  | '+' :: rest => parseUnsigned rest
  | _ => parseUnsigned cs

/-- The `Number(v).valueOf()` coercion applied by the Measure constructor,
with `none` standing for NaN.  A number coerces to itself, NaN stays NaN,
a string goes through `strToNumber`, and undefined coerces to NaN. -/
def JSVal.toNumber : JSVal → Option ℚ
  | .num q => some q
  | .nan => none
  | .str s => strToNumber s
  | .undefined => none

/-- Round a rational to the nearest integer, ties away from zero on the
nonnegative inputs it is used with (the rounding JS `toPrecision` applies
to the scaled absolute value). -/
def roundHalfUp (q : ℚ) : ℤ :=
  ⌊q + 1 / 2⌋

/-- Rounding to `p` significant decimal digits, the mathematical content of
`Number(value.toPrecision(precision))` (src/unitd.js line 70): scale the
absolute value so that `p` digits sit before the decimal point, round to an
integer, and scale back, reapplying the sign. -/
def roundSig (x : ℚ) (p : ℕ) : ℚ :=
  if x = 0 then 0
  else
    let e : ℤ := Int.log 10 |x|
    let shift : ℤ := (p : ℤ) - 1 - e
    (if x < 0 then -1 else 1) * (roundHalfUp (|x| * (10 : ℚ) ^ shift) : ℚ) / (10 : ℚ) ^ shift

/-- A Measure: the full-precision magnitude `raw`, the unit, the precision
in significant digits, and `val`, the magnitude rounded to that precision
(src/unitd.js lines 70-73). -/
structure Measure where
  raw : ℚ
  unit : Unit
  precision : ℚ
  val : ℚ
deriving DecidableEq, Repr

/-- The value argument of the Measure constructor: either an existing
Measure instance (triggering the identity short-circuit) or a plain JS
value to be coerced. -/
inductive MVal where
  | meas (m : Measure)
  | jsv (v : JSVal)
deriving DecidableEq, Repr

/-- The reserved dimensionless unit, registered at startup as
`Unit.register('_reserved', 'nonUnited', '', 1)` (src/unitd.js line 153). -/
def nonUnited : Unit :=
  ⟨"_reserved", "nonUnited", "", 1⟩

/-- The precision computation of the Measure constructor (src/unitd.js
lines 50-56 and 67): a non-number is coerced with `Number`, NaN defaults to
the maximum precision 15, and the result is clamped to [1, 15].  Note that
`JSVal.toNumber` is the identity on numbers and NaN on NaN, so it covers
both the coerced and the already-numeric paths. -/
def computePrecision (p : JSVal) : ℚ :=
  match p.toNumber with
  | none => 15
  | some q => max (min q 15) 1

/-- The body of the Measure constructor past the identity short-circuit
(src/unitd.js lines 50-73).  The precision argument is coerced, defaulted
and clamped; the value argument is coerced and a NaN outcome raises the
invalid-value error, whose message interpolates the coerced value (which
at that point is NaN); a missing unit defaults to the reserved
dimensionless unit; `val` is `raw` rounded to `precision` significant
digits, `toPrecision` truncating a fractional precision to an integer. -/
def mkMeasureJS (v : JSVal) (unit : Option Unit) (precision : JSVal) : Except Err Measure :=
  let p := computePrecision precision
  match v.toNumber with
  | none => .error (.invalidValue ("A number is required, found [" ++ "NaN" ++ "]"))
  | some q =>
    let u := unit.getD nonUnited
    .ok { raw := q, unit := u, precision := p, val := roundSig q p.floor.toNat }

/-- The entry point of the constructor: the identity short-circuit for a
value that is already a Measure (src/unitd.js lines 43-45), and otherwise
the coercing construction `mkMeasureJS`. -/
def mkMeasure (value : MVal) (unit : Option Unit) (precision : JSVal) : Except Err Measure :=
  match value with
  | .meas m => .ok m
  | .jsv v => mkMeasureJS v unit precision

/-- Lookup of a registered unit among the units defined on the type
namespace `Unit[type]` (the own properties installed by the
`Object.defineProperty` at src/unitd.js line 120). -/
def lookupUnit (reg : List Unit) (type name : String) : Option Unit :=
  reg.find? (fun u => u.type == type && u.name == name)

/-- Whether a type namespace function `Unit[t]` has been created, tracked
through the units registered under it.  (A namespace created by a
registration that then failed its duplicate check carries no unit and is
indistinguishable from an absent one at this level; its only observable
difference — skipping the reserved-word `eval` on a later registration —
cannot matter, because a reserved-word tag can never have been created.) -/
def typeCreated (reg : List Unit) (t : String) : Bool :=
  reg.any (fun u => u.type == t)

/-- Property names a function object inherits from `Function.prototype`
and `Object.prototype` per the ECMAScript specification, all
function-valued or object-valued and hence truthy. -/
def inheritedFunctionProps : List String :=
  ["constructor", "apply", "bind", "call", "toString", "hasOwnProperty",
   "isPrototypeOf", "propertyIsEnumerable", "toLocaleString", "valueOf",
   "__proto__", "__defineGetter__", "__defineSetter__", "__lookupGetter__",
   "__lookupSetter__"]

/-- The restricted `Function.prototype` accessors: reading them on a
strict-mode function (the `eval` at src/unitd.js line 104 runs under the
module's `'use strict'`) throws a TypeError. -/
def restrictedFunctionProps : List String :=
  ["caller", "arguments"]

/-- Truthy own properties of the `Unit` constructor itself besides the
created type namespaces: the `register` function, the `prototype` object
locked at src/unitd.js line 91, and the function name string `"Unit"`.
(`length` is 0 and falsy, so as a type tag it behaves like an absent
one.) -/
def unitOwnCollision : List String :=
  ["register", "prototype", "name"]

/-- The ECMAScript reserved words (strict mode included): using one as the
name of the function expression built by the `eval` at src/unitd.js line
104 raises a SyntaxError, although every one of them passes the
`/^[_a-zA-Z]\w*$/` test. -/
def jsReservedWords : List String :=
  ["break", "case", "catch", "class", "const", "continue", "debugger",
   "default", "delete", "do", "else", "enum", "export", "extends", "false",
   "finally", "for", "function", "if", "in", "instanceof", "new",
   "null", "return", "super", "switch", "this", "throw", "true", "try",
   "typeof", "var", "void", "while", "with", "yield", "let", "static",
   "implements", "interface", "package", "private", "protected", "public",
   "eval", "arguments", "import"]

/-- The value a property read `Unit[t][s]` can produce on a created type
namespace: a registered unit, the function name string (the type tag), a
truthy built-in object or function, the falsy number 0 (the `length` of
the parameterless constructor), undefined, or a read that itself throws
(the restricted accessors). -/
inductive PropRead where
  | unitV (u : Unit)
  | strV (s : String)
  | objV (name : String)
  | zeroV
  | undefV
  | thrown
deriving DecidableEq, Repr

/-- JS truthiness of a produced property value: units, objects and
functions are truthy, a string iff nonempty, 0 and undefined are falsy.
(`thrown` never produces a value; the case is unused.) -/
def PropRead.truthy : PropRead → Bool
  | .unitV _ => true
  | .strV s => !s.isEmpty
  | .objV _ => true
  | .zeroV => false
  | .undefV => false
  | .thrown => false

/-- The non-unit properties found on a created type namespace function
when `s` names no registered unit: its own `name` (the type tag string),
`length` (0), `prototype`, the `property` slot defined at creation
(src/unitd.js line 109), the inherited `Function.prototype` and
`Object.prototype` members, and the restricted accessors. -/
def builtinProp (t s : String) : PropRead :=
  if s == "name" then .strV t
  else if s == "length" then .zeroV
  else if s == "prototype" || s == "property" then .objV s
  else if inheritedFunctionProps.contains s then .objV s
  else if restrictedFunctionProps.contains s then .thrown
  else .undefV

/-- The full property read `Unit[t][s]` on a created type namespace: own
defined units shadow everything (a registered unit named `length` or
`toString` replaces the built-in slot via `Object.defineProperty`), then
the built-in properties apply. -/
def readTypeProp (reg : List Unit) (t s : String) : PropRead :=
  match lookupUnit reg t s with
  | some u => .unitV u
  | none => builtinProp t s

/-- The argument of `Measure.prototype.as`: a unit instance, or a unit name
to be resolved under the type of the receiving measure. -/
inductive UnitArg where
  | inst (u : Unit)
  | byName (s : String)

/-- What the name resolution of `as` hands to the comparability check: a
unit, or a truthy non-unit property value (recorded by the name that was
looked up), which `instanceof` will then reject. -/
inductive Target where
  | unitT (u : Unit)
  | junkT (prop : String)
deriving DecidableEq, Repr

/-- The name branch of the resolution step of `Measure.prototype.as`
(src/unitd.js lines 77-83): `unit = Unit[this.unit.type][name]` followed
by `if (!unit) throw` — a falsy read (absent name, empty-string name
value, or the 0-valued `length`) raises the unresolvable-unit error, a
truthy non-unit read slips through as junk, and a read of the restricted
accessors throws a TypeError.  When the type namespace was never created,
`Unit[t]` is undefined (or, for a collision tag, a pre-existing host
object) and the read behaves accordingly: a TypeError off undefined, the
boxed-zero read off `length` giving undefined hence the unresolvable
error, or a host-object read outside the model. -/
def resolveByName (reg : List Unit) (t s : String) : Except Err Target :=
  if typeCreated reg t then
    match readTypeProp reg t s with
    | .unitV u => .ok (.unitT u)
    | .strV j => if j.isEmpty then .error (.unresolvable s) else .ok (.junkT s)
    | .objV _ => .ok (.junkT s)
    | .zeroV => .error (.unresolvable s)
    | .undefV => .error (.unresolvable s)
    | .thrown => .error (.typeError ("Unit." ++ t ++ "." ++ s))
  else if t == "length" then .error (.unresolvable s)
  else if unitOwnCollision.contains t || inheritedFunctionProps.contains t then
    .error (.hostBoundary ("Unit." ++ t))
  else
    .error (.typeError ("Unit." ++ t))

/-- The resolution step of `Measure.prototype.as`: a value that is already
a unit instance skips the lookup entirely (src/unitd.js line 77). -/
def resolveUnit (reg : List Unit) (t : String) : UnitArg → Except Err Target
  | .inst u => .ok (.unitT u)
  | .byName s => resolveByName reg t s

/-- `Measure.prototype.as` (src/unitd.js lines 76-88).  After resolution,
the comparability check `this.unit.isComparable(unit)` runs `unit
instanceof Unit[type]`: a unit of another type, and any truthy non-unit
junk the name resolution produced, fail it and raise the incompatibility
error; otherwise the result is a new Measure built from
`this.raw * this.unit.scale / unit.scale` with the target unit and the
precision of the receiver. -/
def Measure.as (reg : List Unit) (m : Measure) (a : UnitArg) : Except Err Measure :=
  match resolveUnit reg m.unit.type a with
  | .error e => .error e
  | .ok (.unitT u) =>
    if m.unit.isComparable u then
      mkMeasure (.jsv (.num (m.raw * m.unit.scale / u.scale))) (some u) (.num m.precision)
    else
      .error (.incompatible m.unit u)
  | .ok (.junkT p) => .error (.incompatibleValue m.unit p)

/-- The identifier-shape test `/^[_a-zA-Z]\w*$/` of `Unit.register`
(src/unitd.js line 94). -/
def validName (s : String) : Bool :=
  match s.data with
  | [] => false
  | c :: cs => (c.isAlpha || c == '_') && cs.all (fun d => d.isAlphanum || d == '_')

/-- `Unit.register(type, name, abbr, scale)` (src/unitd.js lines 92-128):
reject a non-identifier type, then a non-identifier name.  The creation
test `if (!Unit[type])` then reads the type slot off the Unit
constructor: reading a restricted accessor throws a TypeError; a slot
already holding a pre-existing host object (the `register` function, the
locked `prototype`, the `"Unit"` name string, an inherited built-in)
skips creation and grafts the rest of the registration onto that object,
outside the registry — the model reports the boundary.  A genuinely fresh
tag (including `length`, whose slot reads the falsy 0) is created by the
`eval`, which throws a SyntaxError for a reserved word.  The duplicate
test `if (Unit[type][name])` (line 115) is then a property-truthiness
read on the namespace: a registered unit, but also any truthy built-in
property (`toString`, `name`, `prototype`, `property`, `constructor`,
...), raises the duplicate error; reading the restricted accessors
throws; only a falsy read (absent, or the 0-valued `length`) lets the
unit be defined and appended. -/
def Unit.register (reg : List Unit) (type name abbr : String) (scale : ℚ) :
    Except Err (List Unit) :=
  if !validName type then .error (.badTypeName type)
  else if !validName name then .error (.badUnitName name)
  else if restrictedFunctionProps.contains type then
    .error (.typeError ("Unit." ++ type))
  else if unitOwnCollision.contains type || inheritedFunctionProps.contains type then
    .error (.hostBoundary ("Unit." ++ type))
  else if !typeCreated reg type && jsReservedWords.contains type then
    .error (.reservedWord type)
  else
    match readTypeProp reg type name with
    | .thrown => .error (.typeError ("Unit." ++ type ++ "." ++ name))
    | r =>
      if r.truthy then .error (.duplicateUnit type name)
      else .ok (reg ++ [⟨type, name, abbr, scale⟩])

/-- The state of the Operation registry (src/unitd.js lines 18-40): the
name-to-function mapping and the subscribed listeners, the latter modelled
by subscription tokens. -/
structure Operations where
  ops : List (String × (ℚ → ℚ → ℚ))
  listeners : List ℕ

/-- `Operations.register(name, func)` (src/unitd.js lines 22-30) on the
plain `ops` object.  The duplicate test `ops.hasOwnProperty(name)` (line
23) resolves `hasOwnProperty` through the prototype chain: if an
operation named `hasOwnProperty` has previously been stored, that stored
numeric operation is called on the name string instead of the real check,
and the outcome (a spurious duplicate error or a silent pass) depends on
its behavior on a string argument — outside the numeric model, reported
as a boundary.  Otherwise the check tests exactly the stored own
properties.  The assignment `ops[name] = func` (line 26) then creates an
own property — except for the name `__proto__`, where the inherited
accessor consumes the assignment by setting the prototype of `ops`, so
nothing is stored (and the duplicate error can never fire for it).  Every
currently subscribed listener is then notified with `(name, func)`,
whether or not anything was stored; the notifications are returned as the
list of events fired, in listener subscription order, each event carrying
the token of the notified listener and the arguments it receives. -/
def Operations.register (s : Operations) (name : String) (func : ℚ → ℚ → ℚ) :
    Except Err (Operations × List (ℕ × String × (ℚ → ℚ → ℚ))) :=
  if (s.ops.map Prod.fst).contains "hasOwnProperty" then
    .error (.hostBoundary "ops.hasOwnProperty")
  else if (s.ops.lookup name).isSome then
    .error (.duplicateOp name)
  else if name == "__proto__" then
    .ok (s, s.listeners.map (fun l => (l, name, func)))
  else
    .ok ({ s with ops := s.ops ++ [(name, func)] },
         s.listeners.map (fun l => (l, name, func)))

/-- `Operations.onRegister(listener)` (src/unitd.js lines 32-34): append
the listener; no event is fired for past registrations. -/
def Operations.onRegister (s : Operations) (l : ℕ) : Operations :=
  { s with listeners := s.listeners ++ [l] }

/-- `Operations.getOperations()` (src/unitd.js lines 36-39): expose the
current mapping. -/
def Operations.getOperations (s : Operations) : List (String × (ℚ → ℚ → ℚ)) :=
  s.ops

/-- The operand coercion of the mounted operation method (src/unitd.js
lines 136-140): an argument that is not a Measure is run through the
Measure constructor with the single-argument signature, so its unit and
precision arguments are undefined. -/
def coerceOperand : MVal → Except Err Measure
  | .meas m => .ok m
  | .jsv v => mkMeasure (.jsv v) none .undefined

/-- The method mounted on the Measure prototype for a registered operation
(src/unitd.js lines 134-150).  After `coerceOperand`, incomparable units
fail with the incompatibility error; otherwise the result is a new Measure
whose magnitude is the operation applied to both magnitudes scaled to the
common base, divided back by the scale of the receiver, tagged with the
unit of the receiver and the smaller of the two precisions. -/
def opMethod (op : ℚ → ℚ → ℚ) (m1 : Measure) (arg : MVal) : Except Err Measure :=
  match coerceOperand arg with
  | .error e => .error e
  | .ok m2 =>
    if m1.unit.isComparable m2.unit then
      mkMeasure
        (.jsv (.num (op (m1.raw * m1.unit.scale) (m2.raw * m2.unit.scale) / m1.unit.scale)))
        (some m1.unit) (.num (min m1.precision m2.precision))
    else
      .error (.incompatible m1.unit m2.unit)

/-- The kilometer unit as registered at startup (src/unitd.js line 157). -/
def kilometer : Unit :=
  ⟨"distance", "kilometer", "km", 1000⟩

/-- The meter unit as registered at startup (src/unitd.js line 158). -/
def meter : Unit :=
  ⟨"distance", "meter", "m", 1⟩

/-- The units pre-seeded at startup (src/unitd.js lines 153-167), in
registration order. -/
def initialUnits : List Unit :=
  [nonUnited,
   ⟨"amount", "count", "", 1⟩,
   ⟨"amount", "mole", "mol", 1⟩,
   ⟨"distance", "astronomicalUnit", "au", 149597870700⟩,
   kilometer,
   meter,
   ⟨"distance", "millimeter", "mm", 1 / 1000⟩,
   ⟨"distance", "mile", "mi", 1609344 / 1000⟩,
   ⟨"distance", "yard", "yd", 9144 / 10000⟩,
   ⟨"distance", "foot", "ft", 30480 / 100000⟩,
   ⟨"distance", "inch", "in", 254 / 10000⟩,
   ⟨"time", "day", "d", 86400⟩,
   ⟨"time", "hour", "hr", 3600⟩,
   ⟨"time", "minute", "m", 60⟩,
   ⟨"time", "second", "s", 1⟩]

/-- The startup unit registrations as performed by the source, as a fold of
`Unit.register` over the seed table. -/
def seedUnits : Except Err (List Unit) :=
  [("_reserved", "nonUnited", "", (1 : ℚ)),
   ("amount", "count", "", 1),
   ("amount", "mole", "mol", 1),
   ("distance", "astronomicalUnit", "au", 149597870700),
   ("distance", "kilometer", "km", 1000),
   ("distance", "meter", "m", 1),
   ("distance", "millimeter", "mm", 1 / 1000),
   ("distance", "mile", "mi", 1609344 / 1000),
   ("distance", "yard", "yd", 9144 / 10000),
   ("distance", "foot", "ft", 30480 / 100000),
   ("distance", "inch", "in", 254 / 10000),
   ("time", "day", "d", 86400),
   ("time", "hour", "hr", 3600),
   ("time", "minute", "m", 60),
   ("time", "second", "s", 1)].foldl
    (fun acc e => acc.bind (fun reg => Unit.register reg e.1 e.2.1 e.2.2.1 e.2.2.2))
    (.ok [])

theorem seedUnits_eq : seedUnits = .ok initialUnits := by rfl

/-! ### Helper lemmas shared by the claim theorems -/

theorem computePrecision_num (q : ℚ) : computePrecision (.num q) = max (min q 15) 1 := rfl

theorem computePrecision_clamped {q : ℚ} (h1 : 1 ≤ q) (h2 : q ≤ 15) :
    computePrecision (.num q) = q := by
  rw [computePrecision_num, min_eq_left h2, max_eq_left h1]

theorem computePrecision_bounds (p : JSVal) :
    1 ≤ computePrecision p ∧ computePrecision p ≤ 15 := by
  unfold computePrecision
  cases hv : p.toNumber with
  | none => norm_num
  | some q => exact ⟨le_max_right _ _, max_le (le_trans (min_le_right _ _) le_rfl) (by norm_num)⟩

theorem mkMeasure_num (q : ℚ) (u : Option Unit) (p : JSVal) :
    mkMeasure (.jsv (.num q)) u p
      = .ok ⟨q, u.getD nonUnited, computePrecision p,
             roundSig q (computePrecision p).floor.toNat⟩ := rfl

theorem mkMeasure_jsv (v : JSVal) (u : Option Unit) (p : JSVal) :
    mkMeasure (.jsv v) u p = mkMeasureJS v u p := rfl

theorem mkMeasureJS_none {v : JSVal} (hv : v.toNumber = none) (u : Option Unit) (p : JSVal) :
    mkMeasureJS v u p = .error (.invalidValue "A number is required, found [NaN]") := by
  unfold mkMeasureJS
  rw [hv]
  rfl

theorem mkMeasureJS_some {v : JSVal} {q : ℚ} (hv : v.toNumber = some q)
    (u : Option Unit) (p : JSVal) :
    mkMeasureJS v u p
      = .ok ⟨q, u.getD nonUnited, computePrecision p,
             roundSig q (computePrecision p).floor.toNat⟩ := by
  unfold mkMeasureJS
  rw [hv]

theorem mkMeasure_precision {v : JSVal} {u : Option Unit} {p : JSVal} {m : Measure}
    (h : mkMeasure (.jsv v) u p = .ok m) : m.precision = computePrecision p := by
  rw [mkMeasure_jsv] at h
  cases hv : v.toNumber with
  | none =>
    rw [mkMeasureJS_none hv] at h
    cases h
  | some q =>
    rw [mkMeasureJS_some hv] at h
    cases h
    rfl

theorem isComparable_eq_true {u v : Unit} (h : u.type = v.type) : u.isComparable v = true := by
  simp [Unit.isComparable, h]

theorem isComparable_eq_false {u v : Unit} (h : u.type ≠ v.type) : u.isComparable v = false := by
  simp [Unit.isComparable, h]

theorem as_inst (reg : List Unit) (m : Measure) (u : Unit) :
    m.as reg (.inst u)
      = if m.unit.isComparable u then
          mkMeasure (.jsv (.num (m.raw * m.unit.scale / u.scale))) (some u) (.num m.precision)
        else .error (.incompatible m.unit u) := rfl

theorem resolveUnit_byName (reg : List Unit) (t s : String) :
    resolveUnit reg t (.byName s) = resolveByName reg t s := rfl

theorem builtinProp_ne_unitV (t s : String) (u : Unit) : builtinProp t s ≠ .unitV u := by
  unfold builtinProp
  intro h
  split at h <;> try cases h
  split at h <;> try cases h
  split at h <;> try cases h
  split at h <;> try cases h
  split at h <;> cases h

theorem readTypeProp_unitV {reg : List Unit} {t s : String} {u : Unit}
    (h : readTypeProp reg t s = .unitV u) : lookupUnit reg t s = some u := by
  unfold readTypeProp at h
  cases hl : lookupUnit reg t s with
  | some u2 => rw [hl] at h; cases h; rfl
  | none => rw [hl] at h; exact absurd h (builtinProp_ne_unitV t s u)

theorem typeCreated_of_lookup {reg : List Unit} {t s : String} {u : Unit}
    (h : lookupUnit reg t s = some u) : typeCreated reg t = true := by
  unfold lookupUnit at h
  have hm : u ∈ reg := List.mem_of_find?_eq_some h
  have hp := List.find?_some h
  unfold typeCreated
  rw [List.any_eq_true]
  exact ⟨u, hm, ((Bool.and_eq_true _ _).mp hp).1⟩

theorem resolveByName_created {reg : List Unit} {t : String}
    (hc : typeCreated reg t = true) (s : String) :
    resolveByName reg t s
      = match readTypeProp reg t s with
        | .unitV u => .ok (.unitT u)
        | .strV j => if j.isEmpty then .error (.unresolvable s) else .ok (.junkT s)
        | .objV _ => .ok (.junkT s)
        | .zeroV => .error (.unresolvable s)
        | .undefV => .error (.unresolvable s)
        | .thrown => .error (.typeError ("Unit." ++ t ++ "." ++ s)) := by
  unfold resolveByName
  rw [if_pos hc]

theorem opMethod_meas (op : ℚ → ℚ → ℚ) (m1 m2 : Measure) :
    opMethod op m1 (.meas m2)
      = if m1.unit.isComparable m2.unit then
          mkMeasure
            (.jsv (.num (op (m1.raw * m1.unit.scale) (m2.raw * m2.unit.scale) / m1.unit.scale)))
            (some m1.unit) (.num (min m1.precision m2.precision))
        else .error (.incompatible m1.unit m2.unit) := rfl

theorem opMethod_jsv_num (op : ℚ → ℚ → ℚ) (m1 : Measure) (x : ℚ) :
    opMethod op m1 (.jsv (.num x))
      = opMethod op m1 (.meas ⟨x, nonUnited, 15, roundSig x ((15 : ℚ).floor.toNat)⟩) := rfl

/-! ### Claim theorems -/

/-- C6: in Measure construction, the stored precision is `computePrecision`
of the precision argument: a non-numeric argument is coerced, a NaN
coercion outcome defaults to 15, and a numeric value is clamped to the
inclusive range [1, 15]; in particular the argument 0 yields precision 1,
99 yields 15, and the string "bogus" yields 15. -/
theorem measure_precision_spec :
    (∀ (v : JSVal) (u : Option Unit) (p : JSVal) (m : Measure),
        mkMeasure (.jsv v) u p = .ok m → m.precision = computePrecision p) ∧
    (∀ p : JSVal, p.toNumber = none → computePrecision p = 15) ∧
    (∀ q : ℚ, computePrecision (.num q) = max (min q 15) 1) ∧
    computePrecision (.num 0) = 1 ∧
    computePrecision (.num 99) = 15 ∧
    computePrecision (.str "bogus") = 15 := by
  refine ⟨fun v u p m h => mkMeasure_precision h, fun p hp => ?_, fun q => rfl,
    by decide, by decide, by decide⟩
  unfold computePrecision
  rw [hp]

/-- C6 witness: the general clauses evaluated at concrete inputs — an
undefined precision argument coerces to NaN and defaults to 15, and the
numeric argument 0 clamps to 1. -/
theorem measure_precision_spec_witness :
    computePrecision JSVal.undefined = 15 ∧ computePrecision (.num 0) = 1 :=
  ⟨measure_precision_spec.2.1 .undefined rfl, measure_precision_spec.2.2.2.1⟩

/-- C7: evaluating the constructor at the non-coercible input "bogus"
shows the invalid-value error interpolates the coerced NaN, not the
original input; the error is in fact identical for every non-coercible
input, so it cannot reference the original one.  The source marks this
with `// TODO use non-coerced value in error message` (src/unitd.js line
62), so the spec states the intent and the code diverges from it. -/
theorem measure_invalid_value_message :
    mkMeasure (.jsv (.str "bogus")) none .undefined
        = .error (.invalidValue "A number is required, found [NaN]") ∧
    mkMeasure (.jsv (.str "junk")) none .undefined
        = mkMeasure (.jsv (.str "bogus")) none .undefined :=
  ⟨rfl, rfl⟩

/-- C8: the Measure constructor applied to a value that is already a
Measure returns that Measure itself, whatever the unit and precision
arguments are. -/
theorem measure_identity (m : Measure) (u : Option Unit) (p : JSVal) :
    mkMeasure (.meas m) u p = .ok m := rfl

/-- C9 counterexample: constructing a Measure with the fractional numeric
precision argument 5/2 succeeds and stores precision 5/2, which is not an
integer — the code clamps the precision but never rounds it. -/
theorem measure_precision_not_integer :
    (mkMeasure (.jsv (.num 1)) none (.num (5 / 2))).map Measure.precision = .ok (5 / 2) ∧
    ¬ ∃ n : ℤ, (5 / 2 : ℚ) = (n : ℚ) := by
  constructor
  · rw [mkMeasure_num]
    show Except.ok (computePrecision (.num (5 / 2))) = _
    rw [computePrecision_clamped (by norm_num) (by norm_num)]
  · rintro ⟨n, hn⟩
    have h5 : (5 : ℚ) = 2 * (n : ℚ) := by linarith
    have h5z : (5 : ℤ) = 2 * n := by exact_mod_cast h5
    omega

/-- C9 amended: for every successfully constructed Measure, the stored
precision lies in the inclusive range [1, 15]; it is a rational (in JS a
number), not necessarily an integer, since a fractional numeric precision
argument is clamped but stored unrounded. -/
theorem measure_precision_range (v : JSVal) (u : Option Unit) (p : JSVal) (m : Measure)
    (h : mkMeasure (.jsv v) u p = .ok m) :
    1 ≤ m.precision ∧ m.precision ≤ 15 := by
  rw [mkMeasure_precision h]
  exact computePrecision_bounds p

/-- C9 amended witness: the bounds evaluated on the Measure built from
value 1 with precision argument 15. -/
theorem measure_precision_range_witness :
    1 ≤ (Measure.mk 1 nonUnited 15 (roundSig 1 ((15 : ℚ).floor.toNat))).precision ∧
    (Measure.mk 1 nonUnited 15 (roundSig 1 ((15 : ℚ).floor.toNat))).precision ≤ 15 :=
  measure_precision_range (.num 1) none (.num 15)
    ⟨1, nonUnited, 15, roundSig 1 ((15 : ℚ).floor.toNat)⟩ rfl

/-- C1: for two Measures with clamped precisions, a registered operation
invoked on comparable operands returns a Measure whose raw is
`op (raw1 * scale1, raw2 * scale2) / scale1`, whose unit is the unit of
the receiver, and whose precision is the minimum of the two precisions;
on incomparable operands it fails with the incompatibility error. -/
theorem opMethod_spec (op : ℚ → ℚ → ℚ) (m1 m2 : Measure)
    (h1a : 1 ≤ m1.precision) (h1b : m1.precision ≤ 15)
    (h2a : 1 ≤ m2.precision) (h2b : m2.precision ≤ 15) :
    (m1.unit.isComparable m2.unit = true →
      ∃ r : Measure, opMethod op m1 (.meas m2) = .ok r ∧
        r.raw = op (m1.raw * m1.unit.scale) (m2.raw * m2.unit.scale) / m1.unit.scale ∧
        r.unit = m1.unit ∧
        r.precision = min m1.precision m2.precision) ∧
    (m1.unit.isComparable m2.unit = false →
      opMethod op m1 (.meas m2) = .error (.incompatible m1.unit m2.unit)) := by
  constructor
  · intro hc
    rw [opMethod_meas, if_pos hc, mkMeasure_num]
    refine ⟨_, rfl, rfl, rfl, ?_⟩
    show computePrecision (.num (min m1.precision m2.precision)) = _
    exact computePrecision_clamped (le_min h1a h2a) (by simpa using min_le_min h1b h2b)
  · intro hc
    rw [opMethod_meas, if_neg (by simp [hc])]

/-- C1 witness: adding 500 meters to 2 kilometers (with precisions 4 and 3)
gives raw 5/2, unit kilometer and precision 3. -/
theorem opMethod_spec_witness :
    ∃ r : Measure,
      opMethod (fun a b => a + b) (Measure.mk 2 kilometer 4 2)
          (.meas (Measure.mk 500 meter 3 500)) = .ok r ∧
      r.raw = 5 / 2 ∧ r.unit = kilometer ∧ r.precision = 3 := by
  obtain ⟨hc, _⟩ := opMethod_spec (fun a b => a + b) (Measure.mk 2 kilometer 4 2)
      (Measure.mk 500 meter 3 500) (by norm_num) (by norm_num) (by norm_num) (by norm_num)
  obtain ⟨r, hr, hraw, hu, hp⟩ := hc rfl
  refine ⟨r, hr, ?_, hu, ?_⟩
  · rw [hraw]; norm_num [kilometer, meter]
  · rw [hp]; decide

/-- C2 counterexample: converting 5 kilometers to the unit named
"constructor" — a name that resolves to no registered unit, as the second
conjunct certifies — fails with the incompatibility error, not the
unresolvable-unit error the claim asserts: the property read
`Unit.distance.constructor` finds the inherited `Function.prototype`
constructor, which is truthy and so slips past the `if (!unit)` check
into the `instanceof` test. -/
theorem as_collision_counterexample :
    Measure.as initialUnits (Measure.mk 5 kilometer 7 5) (.byName "constructor")
        = .error (.incompatibleValue kilometer "constructor") ∧
    lookupUnit initialUnits "distance" "constructor" = none ∧
    Err.incompatibleValue kilometer "constructor" ≠ Err.unresolvable "constructor" := by
  refine ⟨rfl, rfl, ?_⟩
  intro h
  cases h

/-- C2 amended: conversion with `as`, for a Measure with clamped
precision: a target unit instance of the same type yields a new Measure
with raw scaled by the ratio of the scales, the target unit, and the
precision unchanged; a name whose property read on the (created) type
namespace is falsy — absent, the empty-string name of a degenerate tag,
or the 0-valued built-in `length` — fails with the unresolvable-unit
error; a name reading a registered unit behaves like that unit instance;
a name reading a truthy non-unit property (`constructor`, `toString`,
`name`, `prototype`, ...) fails with the incompatibility error instead;
a unit instance of a different type fails with the incompatibility
error. -/
theorem as_spec (reg : List Unit) (m : Measure)
    (hp1 : 1 ≤ m.precision) (hp2 : m.precision ≤ 15) :
    (∀ u : Unit, m.unit.type = u.type →
      ∃ r : Measure, m.as reg (.inst u) = .ok r ∧
        r.raw = m.raw * m.unit.scale / u.scale ∧ r.unit = u ∧ r.precision = m.precision) ∧
    (∀ s : String, typeCreated reg m.unit.type = true →
        (readTypeProp reg m.unit.type s).truthy = false →
        readTypeProp reg m.unit.type s ≠ .thrown →
        m.as reg (.byName s) = .error (.unresolvable s)) ∧
    (∀ (s : String) (u : Unit), readTypeProp reg m.unit.type s = .unitV u →
        m.as reg (.byName s) = m.as reg (.inst u)) ∧
    (∀ s : String, typeCreated reg m.unit.type = true →
        (readTypeProp reg m.unit.type s).truthy = true →
        (∀ u : Unit, readTypeProp reg m.unit.type s ≠ .unitV u) →
        m.as reg (.byName s) = .error (.incompatibleValue m.unit s)) ∧
    (∀ u : Unit, m.unit.type ≠ u.type →
        m.as reg (.inst u) = .error (.incompatible m.unit u)) := by
  refine ⟨?_, ?_, ?_, ?_, ?_⟩
  · intro u ht
    rw [as_inst, if_pos (isComparable_eq_true ht), mkMeasure_num]
    refine ⟨_, rfl, rfl, rfl, ?_⟩
    exact computePrecision_clamped hp1 hp2
  · intro s hc ht hth
    unfold Measure.as
    rw [resolveUnit_byName, resolveByName_created hc]
    cases hr : readTypeProp reg m.unit.type s with
    | unitV u => rw [hr] at ht; cases ht
    | strV j =>
      rw [hr] at ht
      simp only [PropRead.truthy] at ht
      cases hj : j.isEmpty with
      | true => simp [hj]
      | false => rw [hj] at ht; exact absurd ht (by decide)
    | objV j => rw [hr] at ht; cases ht
    | zeroV => rfl
    | undefV => rfl
    | thrown => exact absurd hr hth
  · intro s u hr
    have hc : typeCreated reg m.unit.type = true :=
      typeCreated_of_lookup (readTypeProp_unitV hr)
    unfold Measure.as
    rw [resolveUnit_byName, resolveByName_created hc, hr]
    rfl
  · intro s hc ht hnu
    unfold Measure.as
    rw [resolveUnit_byName, resolveByName_created hc]
    cases hr : readTypeProp reg m.unit.type s with
    | unitV u => exact absurd hr (hnu u)
    | strV j =>
      rw [hr] at ht
      simp only [PropRead.truthy] at ht
      cases hj : j.isEmpty with
      | true => rw [hj] at ht; exact absurd ht (by decide)
      | false => simp [hj]
    | objV j => rfl
    | zeroV => rw [hr] at ht; cases ht
    | undefV => rw [hr] at ht; cases ht
    | thrown => rw [hr] at ht; cases ht
  · intro u ht
    rw [as_inst, if_neg (by simp [isComparable_eq_false ht])]

/-- C2 witness: 5 kilometers (precision 7) converted to the unit named
"meter" in the startup registry gives raw 5000, unit meter, precision 7. -/
theorem as_spec_witness :
    ∃ r : Measure,
      Measure.as initialUnits (Measure.mk 5 kilometer 7 5) (.byName "meter") = .ok r ∧
      r.raw = 5000 ∧ r.unit = meter ∧ r.precision = 7 := by
  have h := as_spec initialUnits (Measure.mk 5 kilometer 7 5) (by norm_num) (by norm_num)
  obtain ⟨r, hr, hraw, hu, hp⟩ := h.1 meter rfl
  rw [h.2.2.1 "meter" meter rfl]
  refine ⟨r, hr, ?_, hu, ?_⟩
  · rw [hraw]; norm_num [kilometer, meter]
  · rw [hp]

/-- C3: the conversion round-trip law, exactly over the exact rational
model: constructing a Measure with magnitude x in a unit u1, converting it
to a unit u2 of the same type and back to u1 recovers raw = x, for any
nonzero scales. -/
theorem as_roundtrip (reg : List Unit) (u1 u2 : Unit) (x : ℚ)
    (htype : u1.type = u2.type) (h1 : u1.scale ≠ 0) (h2 : u2.scale ≠ 0) :
    ∃ m0 m1 m2 : Measure,
      mkMeasure (.jsv (.num x)) (some u1) .undefined = .ok m0 ∧
      m0.as reg (.inst u2) = .ok m1 ∧
      m1.as reg (.inst u1) = .ok m2 ∧
      m2.raw = x := by
  refine ⟨⟨x, u1, 15, roundSig x ((15 : ℚ).floor.toNat)⟩,
    ⟨x * u1.scale / u2.scale, u2, 15,
      roundSig (x * u1.scale / u2.scale) ((15 : ℚ).floor.toNat)⟩,
    ⟨x * u1.scale / u2.scale * u2.scale / u1.scale, u1, 15,
      roundSig (x * u1.scale / u2.scale * u2.scale / u1.scale) ((15 : ℚ).floor.toNat)⟩,
    rfl, ?_, ?_, ?_⟩
  · rw [as_inst, if_pos (isComparable_eq_true htype)]
    rfl
  · rw [as_inst, if_pos (isComparable_eq_true htype.symm)]
    rfl
  · show x * u1.scale / u2.scale * u2.scale / u1.scale = x
    field_simp

/-- C3 witness: 5 kilometers to meters and back to kilometers recovers
raw 5 exactly. -/
theorem as_roundtrip_witness :
    ∃ m0 m1 m2 : Measure,
      mkMeasure (.jsv (.num 5)) (some kilometer) .undefined = .ok m0 ∧
      m0.as initialUnits (.inst meter) = .ok m1 ∧
      m1.as initialUnits (.inst kilometer) = .ok m2 ∧
      m2.raw = 5 :=
  as_roundtrip initialUnits kilometer meter 5 rfl (by decide) (by decide)

/-- C10: a registered operation method invoked with a bare number builds
the operand as a Measure with the reserved dimensionless unit, so when the
unit type of the receiver is not the reserved one the call always fails
with the incompatibility error. -/
theorem opMethod_number_arg (op : ℚ → ℚ → ℚ) (m1 : Measure) (x : ℚ)
    (h : m1.unit.type ≠ "_reserved") :
    (mkMeasure (.jsv (.num x)) none .undefined).map Measure.unit = .ok nonUnited ∧
    opMethod op m1 (.jsv (.num x)) = .error (.incompatible m1.unit nonUnited) := by
  have hc : m1.unit.isComparable nonUnited = false := isComparable_eq_false h
  refine ⟨rfl, ?_⟩
  rw [opMethod_jsv_num, opMethod_meas,
    show (Measure.mk x nonUnited 15 (roundSig x ((15 : ℚ).floor.toNat))).unit = nonUnited
      from rfl,
    if_neg (by simp [hc])]

/-- C10 witness: 2 kilometers plus the bare number 5 fails with the
incompatibility error against the dimensionless unit. -/
theorem opMethod_number_arg_witness :
    (mkMeasure (.jsv (.num 5)) none .undefined).map Measure.unit = .ok nonUnited ∧
    opMethod (fun a b => a + b) (Measure.mk 2 kilometer 15 2) (.jsv (.num 5))
        = .error (.incompatible kilometer nonUnited) :=
  opMethod_number_arg (fun a b => a + b) (Measure.mk 2 kilometer 15 2) 5 (by decide)

theorem unit_register_guards {reg : List Unit} {t n : String} (a : String) (scale : ℚ)
    (ht : validName t = true) (hn : validName n = true)
    (h1 : restrictedFunctionProps.contains t = false)
    (h2 : unitOwnCollision.contains t = false)
    (h3 : inheritedFunctionProps.contains t = false)
    (h4 : jsReservedWords.contains t = false) :
    Unit.register reg t n a scale
      = match readTypeProp reg t n with
        | .thrown => .error (.typeError ("Unit." ++ t ++ "." ++ n))
        | r =>
          if r.truthy then .error (.duplicateUnit t n)
          else .ok (reg ++ [⟨t, n, a, scale⟩]) := by
  unfold Unit.register
  rw [ht, hn, h1, h2, h3, h4, Bool.and_false]
  rfl

/-- C4 counterexample: registering the valid, never-registered pair
(distance, toString) fails with a spurious duplicate error — the
truthiness test `if (Unit[type][name])` at src/unitd.js line 115 finds
the inherited `toString` method — and registering a unit under the fresh,
identifier-shaped type tag `if` fails with the SyntaxError the `eval` at
line 104 raises for a reserved word; the claim asserts both would
succeed. -/
theorem unit_register_counterexample :
    Unit.register initialUnits "distance" "toString" "" 1
        = .error (.duplicateUnit "distance" "toString") ∧
    lookupUnit initialUnits "distance" "toString" = none ∧
    Unit.register initialUnits "if" "battalion" "" 1
        = .error (.reservedWord "if") := by
  exact ⟨rfl, rfl, rfl⟩

/-- C4 amended: for a type tag that does not collide with the own or
inherited properties of the `Unit` constructor and is not a reserved
word, registration rejects a non-identifier type with the naming error
for types, then a non-identifier name with the naming error for names;
the duplicate test is a property-truthiness read, so it fires for an
existing (type, name) pair (every registered unit reads truthy) and
equally for a fresh name colliding with a truthy built-in property of
the namespace; when the read is falsy (and not a restricted accessor,
whose read throws), the unit is appended and immediately retrievable by
type and name with the given abbreviation and scale, and it is
comparable exactly with the units of its own type. -/
theorem unit_register_spec (reg : List Unit) (t n a : String) (scale : ℚ)
    (h1 : restrictedFunctionProps.contains t = false)
    (h2 : unitOwnCollision.contains t = false)
    (h3 : inheritedFunctionProps.contains t = false)
    (h4 : jsReservedWords.contains t = false) :
    (validName t = false → Unit.register reg t n a scale = .error (.badTypeName t)) ∧
    (validName t = true → validName n = false →
        Unit.register reg t n a scale = .error (.badUnitName n)) ∧
    ((lookupUnit reg t n).isSome = true → (readTypeProp reg t n).truthy = true) ∧
    (validName t = true → validName n = true → (readTypeProp reg t n).truthy = true →
        Unit.register reg t n a scale = .error (.duplicateUnit t n)) ∧
    (validName t = true → validName n = true →
        (readTypeProp reg t n).truthy = false → readTypeProp reg t n ≠ .thrown →
        Unit.register reg t n a scale = .ok (reg ++ [⟨t, n, a, scale⟩]) ∧
        lookupUnit (reg ++ [⟨t, n, a, scale⟩]) t n = some ⟨t, n, a, scale⟩) ∧
    (∀ u : Unit, Unit.isComparable ⟨t, n, a, scale⟩ u = (u.type == t)) := by
  refine ⟨?_, ?_, ?_, ?_, ?_, ?_⟩
  · intro ht
    simp [Unit.register, ht]
  · intro ht hn
    simp [Unit.register, ht, hn]
  · intro hd
    unfold readTypeProp
    cases hl : lookupUnit reg t n with
    | some u => rfl
    | none => rw [hl] at hd; cases hd
  · intro ht hn htr
    rw [unit_register_guards a scale ht hn h1 h2 h3 h4]
    cases hr : readTypeProp reg t n with
    | unitV u => rw [hr] at htr; simp [htr]
    | strV j => rw [hr] at htr; simp [PropRead.truthy] at htr ⊢; simp [htr]
    | objV j => rw [hr] at htr; simp [htr]
    | zeroV => rw [hr] at htr; exact absurd htr (by decide)
    | undefV => rw [hr] at htr; exact absurd htr (by decide)
    | thrown => rw [hr] at htr; exact absurd htr (by decide)
  · intro ht hn htr hth
    have hnone : lookupUnit reg t n = none := by
      cases hl : lookupUnit reg t n with
      | none => rfl
      | some u =>
        have hu : readTypeProp reg t n = .unitV u := by
          unfold readTypeProp
          rw [hl]
        rw [hu] at htr
        simp [PropRead.truthy] at htr
    constructor
    · rw [unit_register_guards a scale ht hn h1 h2 h3 h4]
      cases hr : readTypeProp reg t n with
      | unitV u => rw [hr] at htr; simp [PropRead.truthy] at htr
      | strV j => rw [hr] at htr; simp [PropRead.truthy] at htr ⊢; simp [htr]
      | objV j => rw [hr] at htr; simp [PropRead.truthy] at htr
      | zeroV => simp [PropRead.truthy]
      | undefV => simp [PropRead.truthy]
      | thrown => exact absurd hr hth
    · unfold lookupUnit at hnone ⊢
      rw [List.find?_append, hnone]
      simp
  · intro u
    show (t == u.type) = (u.type == t)
    exact Bool.beq_comm

/-- C4 witness: registering a fresh, collision-free distance unit over the
startup registry succeeds and is immediately retrievable; the new unit is
comparable with meter and not with an hour-typed unit. -/
theorem unit_register_spec_witness :
    (Unit.register initialUnits "distance" "furlong" "fur" (201168 / 1000)
        = .ok (initialUnits ++ [⟨"distance", "furlong", "fur", 201168 / 1000⟩]) ∧
     lookupUnit (initialUnits ++ [⟨"distance", "furlong", "fur", 201168 / 1000⟩])
        "distance" "furlong" = some ⟨"distance", "furlong", "fur", 201168 / 1000⟩) ∧
    Unit.isComparable ⟨"distance", "furlong", "fur", 201168 / 1000⟩ meter = true ∧
    Unit.isComparable ⟨"distance", "furlong", "fur", 201168 / 1000⟩
        ⟨"time", "hour", "hr", 3600⟩ = false := by
  have h := unit_register_spec initialUnits "distance" "furlong" "fur" (201168 / 1000)
      rfl rfl rfl rfl
  refine ⟨h.2.2.2.2.1 rfl rfl rfl (by decide), ?_, ?_⟩
  · rw [h.2.2.2.2.2 meter]
    decide
  · rw [h.2.2.2.2.2 ⟨"time", "hour", "hr", 3600⟩]
    decide

/-- C5 counterexample: registering "__proto__" over an empty registry with
one listener raises no duplicate error and fires a notification, yet the
operation is never stored — the returned state still holds no operations —
so the notification is not fired "after the operation is durably stored"
as the claim requires, and a repeated registration of the same name can
never hit the duplicate error: the assignment `ops[name] = func` at
src/unitd.js line 26 triggers the inherited `__proto__` setter instead of
creating an own property. -/
theorem operations_register_proto_counterexample :
    Operations.register ⟨[], [0]⟩ "__proto__" (fun a b => a + b)
        = .ok (⟨[], [0]⟩, [(0, "__proto__", fun a b => a + b)]) ∧
    (Operations.mk [] [0]).ops.lookup "__proto__" = none := by
  exact ⟨rfl, rfl⟩

/-- C5 amended: in a registry where no operation named `hasOwnProperty`
has been stored (storing one shadows the duplicate check and corrupts
every later registration), registration fails with the duplicate error
exactly when the name is already stored, firing no event; for any other
name than `__proto__` the operation is stored, the listener list is
unchanged, and the events fired are exactly one notification per
currently subscribed listener carrying (name, func) — a listener that is
not yet subscribed receives none; registering `__proto__` stores nothing
(the inherited prototype setter consumes the assignment) while still
notifying every listener, and it can never raise the duplicate error. -/
theorem operations_register_guards {s : Operations} (name : String) (func : ℚ → ℚ → ℚ)
    (hH : (s.ops.map Prod.fst).contains "hasOwnProperty" = false) :
    s.register name func
      = if (s.ops.lookup name).isSome then .error (.duplicateOp name)
        else if name == "__proto__" then
          .ok (s, s.listeners.map (fun l => (l, name, func)))
        else
          .ok ({ ops := s.ops ++ [(name, func)], listeners := s.listeners },
               s.listeners.map (fun l => (l, name, func))) := by
  unfold Operations.register
  rw [hH]
  rfl

theorem operations_register_spec (s : Operations) (name : String) (func : ℚ → ℚ → ℚ)
    (hH : (s.ops.map Prod.fst).contains "hasOwnProperty" = false) :
    ((s.ops.lookup name).isSome = true →
        s.register name func = .error (.duplicateOp name)) ∧
    (s.ops.lookup name = none → (name == "__proto__") = false →
        s.register name func
            = .ok ({ ops := s.ops ++ [(name, func)], listeners := s.listeners },
                   s.listeners.map (fun l => (l, name, func))) ∧
        (s.ops ++ [(name, func)]).lookup name = some func ∧
        (∀ l : ℕ,
          (s.listeners.map (fun l2 => (l2, name, func))).countP (fun e => e.1 == l)
            = s.listeners.count l) ∧
        (∀ l : ℕ, l ∉ s.listeners →
          (s.listeners.map (fun l2 => (l2, name, func))).countP (fun e => e.1 == l) = 0)) ∧
    (s.ops.lookup "__proto__" = none →
        s.register "__proto__" func
            = .ok (s, s.listeners.map (fun l => (l, "__proto__", func)))) := by
  refine ⟨?_, ?_, ?_⟩
  · intro hd
    rw [operations_register_guards name func hH, if_pos hd]
  · intro hd hp
    have hcount : ∀ l : ℕ,
        (s.listeners.map (fun l2 => (l2, name, func))).countP (fun e => e.1 == l)
          = s.listeners.count l := by
      intro l
      rw [List.countP_map, List.count_eq_countP]
      rfl
    refine ⟨?_, ?_, hcount, ?_⟩
    · rw [operations_register_guards name func hH, if_neg (by simp [hd]),
        if_neg (by simp [hp])]
    · rw [List.lookup_append, hd]
      simp
    · intro l hl
      rw [hcount l]
      exact List.count_eq_zero_of_not_mem hl
  · intro hd
    rw [operations_register_guards "__proto__" func hH, if_neg (by simp [hd])]
    rfl

/-- C5 witness: registering "pow" over a clean registry holding "add" with
two listeners succeeds, stores the operation, notifies each listener once,
and notifies the unsubscribed listener 2 not at all. -/
theorem operations_register_spec_witness :
    Operations.register ⟨[("add", fun a b => a + b)], [0, 1]⟩ "pow" (fun a b => a * b)
        = .ok ({ ops := [("add", fun a b : ℚ => a + b)] ++ [("pow", fun a b : ℚ => a * b)],
                 listeners := [0, 1] },
               ([0, 1] : List ℕ).map (fun l => (l, "pow", fun a b : ℚ => a * b))) ∧
    ([("add", fun a b : ℚ => a + b)] ++ [("pow", fun a b : ℚ => a * b)]).lookup "pow"
        = some (fun a b : ℚ => a * b) ∧
    (([0, 1] : List ℕ).map (fun l2 => (l2, "pow", fun a b : ℚ => a * b))).countP
        (fun e => e.1 == 1) = ([0, 1] : List ℕ).count 1 ∧
    (([0, 1] : List ℕ).map (fun l2 => (l2, "pow", fun a b : ℚ => a * b))).countP
        (fun e => e.1 == 2) = 0 := by
  obtain ⟨h1, h2, h3, h4⟩ :=
    (operations_register_spec ⟨[("add", fun a b => a + b)], [0, 1]⟩ "pow"
      (fun a b => a * b) rfl).2.1 rfl rfl
  exact ⟨h1, h2, h3 1, h4 2 (by decide)⟩

end Unitd
